import Mathlib

/-!
Verification of the slides2video asset pipeline.

Shallow embedding of the Python sources under src/: file stages are
modelled as pure functions over lists of file names (strings) and
explicit effect traces; fallible code returns Except or Option.
-/

namespace S2V

/-! Python string primitives.  Strings are compared by Unicode code
points, exactly as CPython compares str values. -/

/-- Code points of a string, the order CPython compares str values by. -/
def codes (s : String) : List Nat := s.data.map Char.toNat

/-- Lexicographic strict order on code-point lists (CPython str less-than). -/
def lexLt : List Nat → List Nat → Bool
  | [], [] => false
  | [], _ :: _ => true
  | _ :: _, [] => false
  | a :: as, b :: bs => if a < b then true else if b < a then false else lexLt as bs

/-- CPython str strict less-than. -/
def strLt (a b : String) : Bool := lexLt (codes a) (codes b)

/-- CPython str less-or-equal, as used by the stable builtin sort. -/
def strLe (a b : String) : Bool := !(strLt b a)

/-- Stable insertion of one element into a run of an already-sorted list. -/
def insertSorted (le : α → α → Bool) (x : α) : List α → List α
  | [] => [x]
  | y :: ys => if le x y then x :: y :: ys else y :: insertSorted le x ys

/-- Model of Python builtin sorted: a stable comparison sort. -/
def pySorted (le : α → α → Bool) : List α → List α
  | [] => []
  | x :: xs => insertSorted le x (pySorted le xs)

/-- Code point of a decimal digit. -/
def isDigitCode (c : Nat) : Bool := 48 ≤ c && c ≤ 57

/-! Model of the natsort library used by generate_videoclips.py:
natsorted splits each string into runs of digits and non-digits,
compares digit runs by numeric value and other runs by code points. -/

/-- One token of the natural-sort key: a text run or a numeric run. -/
inductive Chunk
  | text (cs : List Nat)
  | num (val : Nat)
deriving DecidableEq

/-- Tokenizer for the natural-sort key: groups maximal digit runs into
numeric chunks (accumulating their decimal value) and other characters
into text chunks. -/
def tokenizeAux : Option Chunk → List Nat → List Chunk
  | none, [] => []
  | some c, [] => [c]
  | none, c :: cs =>
      tokenizeAux (some (if isDigitCode c then Chunk.num (c - 48) else Chunk.text [c])) cs
  | some (Chunk.num v), c :: cs =>
      if isDigitCode c then tokenizeAux (some (Chunk.num (v * 10 + (c - 48)))) cs
      else Chunk.num v :: tokenizeAux (some (Chunk.text [c])) cs
  | some (Chunk.text t), c :: cs =>
      if isDigitCode c then Chunk.text t :: tokenizeAux (some (Chunk.num (c - 48))) cs
      else tokenizeAux (some (Chunk.text (t ++ [c]))) cs

/-- Natural-sort key of a string. -/
def tokenize (s : String) : List Chunk := tokenizeAux none (codes s)

/-- Strict order on key chunks: numbers compare numerically and sort
before text, text compares by code points. -/
def chunkLt : Chunk → Chunk → Bool
  | Chunk.num a, Chunk.num b => a < b
  | Chunk.num _, Chunk.text _ => true
  | Chunk.text _, Chunk.num _ => false
  | Chunk.text a, Chunk.text b => lexLt a b

/-- Lexicographic strict order on chunk lists. -/
def chunksLt : List Chunk → List Chunk → Bool
  | [], [] => false
  | [], _ :: _ => true
  | _ :: _, [] => false
  | a :: as, b :: bs => if chunkLt a b then true else if chunkLt b a then false else chunksLt as bs

/-- Natural-sort strict order on strings. -/
def natKeyLt (a b : String) : Bool := chunksLt (tokenize a) (tokenize b)

/-- Natural-sort less-or-equal on strings. -/
def natKeyLe (a b : String) : Bool := !(natKeyLt b a)

/-- Model of natsort.natsorted on file names. -/
def natsorted (xs : List String) : List String := pySorted natKeyLe xs

/-! Path helpers mirroring pathlib. -/

/-- Model of pathlib Path.stem: the file name without its last extension. -/
def stemOf (name : String) : String :=
  match (name.data.reverse).findIdx? (fun c => c == '.') with
  | none => name
  | some i => ⟨((name.data.reverse).drop (i + 1)).reverse⟩

/-- Split a character list on the underscore character, as Python
str.split with argument underscore does. -/
def splitUS : List Char → List Char → List (List Char)
  | acc, [] => [acc.reverse]
  | acc, c :: cs => if c == '_' then acc.reverse :: splitUS [] cs else splitUS (c :: acc) cs

/-- Last field of a string split on underscores: models
stem.split with underscore, indexed at minus one. -/
def lastField (s : String) : String := ⟨(splitUS [] s.data).getLastD s.data⟩

/-- Decidable equality for Except values, so concrete runs of the
fallible stage models can be checked by evaluation. -/
def exceptDecEq [DecidableEq ε] [DecidableEq α] : DecidableEq (Except ε α)
  | Except.ok a, Except.ok b =>
      match decEq a b with
      | isTrue h => isTrue (h ▸ rfl)
      | isFalse h => isFalse (fun hh => h (Except.ok.inj hh))
  | Except.ok _, Except.error _ => isFalse (fun hh => Except.noConfusion hh)
  | Except.error _, Except.ok _ => isFalse (fun hh => Except.noConfusion hh)
  | Except.error a, Except.error b =>
      match decEq a b with
      | isTrue h => isTrue (h ▸ rfl)
      | isFalse h => isFalse (fun hh => h (Except.error.inj hh))

instance [DecidableEq ε] [DecidableEq α] : DecidableEq (Except ε α) := exceptDecEq

/-! assemble_video.py -/

/-- Model of assemble_video.create_concat_file (lines 9 to 16): glob the
clip files, sort them with the builtin sorted keyed on the path stem,
and write one manifest line per clip.  The returned list is the order of
the clip names in the manifest. -/
def create_concat_file (clips : List String) : List String :=
  pySorted (fun a b => strLe (stemOf a) (stemOf b)) clips

/-! text2speech.py -/

/-- Model of a Python int call on a code-point list: an optional sign
followed by a nonempty digit run parses to its value, anything else
(including the empty string) raises ValueError, modelled as none. -/
def digitsVal (cs : List Nat) : Option Nat :=
  if cs.isEmpty then none
  else if cs.all isDigitCode then
    some (cs.foldl (fun acc c => acc * 10 + (c - 48)) 0)
  else none

/-- Model of Python int on a string body, returning none for ValueError. -/
def pyInt (cs : List Nat) : Option Int :=
  match cs with
  | 45 :: rest => (digitsVal rest).map (fun n => -(n : Int))
  | 43 :: rest => (digitsVal rest).map (fun n => (n : Int))
  | _ => (digitsVal cs).map (fun n => (n : Int))

/-- Model of text2speech.parse_rate_limit_headers (lines 25 to 26): take
the ratelimit reset header if present, else the default string composed
of the single digit one, drop the last character, and convert with int.
A none result models the ValueError int raises on a non-numeric body. -/
def parse_rate_limit_headers (hdr : Option String) : Option Int :=
  pyInt ((codes (hdr.getD "1")).dropLast)

/-- Model of Python str.strip with no argument: drop leading and
trailing whitespace. -/
def pyStrip (s : String) : String :=
  ⟨(((s.data.dropWhile Char.isWhitespace).reverse).dropWhile Char.isWhitespace).reverse⟩

/-- Whether Python would treat the text as empty after stripping, the
guard text2speech uses before synthesizing. -/
def stripEmpty (s : String) : Bool := (pyStrip s).data.isEmpty

/-- Outcome of one call to the external speech API. -/
inductive CallOutcome
  | success (bytes : List Nat)
  | rateLimit (hdr : Option String)
  | otherError
deriving DecidableEq

/-- Observable effects of one text_to_speech invocation. -/
inductive TTSEffect
  | warnMissing
  | copySilence
  | apiCall
  | writeTemp
  | writeOutput
  | unlinkTemp
  | sleep (secs : Nat)
deriving DecidableEq

/-- How one text_to_speech invocation returns to its caller. -/
inductive TTSResult
  | ok
  | raisedRateLimit (hdr : Option String)
  | raisedOther
deriving DecidableEq

/-- Model of text2speech.text_to_speech (lines 40 to 80).  The function
has no retry wrapper in the source: the tenacity module is imported and
before_sleep_func is defined but never installed, and the only except
clause re-raises RateLimitError unchanged, so each invocation makes at
most one API call.  The oracle lists the outcomes the external API would
give to successive calls; the third component is the content written to
the output path, none when nothing is written.  A successful synthesis
writes the voiceover padded with the silence track on both sides. -/
def text_to_speech (noteFileExists : Bool) (text : String) (silence : List Nat)
    (oracle : List CallOutcome) : TTSResult × List TTSEffect × Option (List Nat) :=
  if noteFileExists = false then (TTSResult.ok, [TTSEffect.warnMissing], none)
  else if stripEmpty text then (TTSResult.ok, [TTSEffect.copySilence], some silence)
  else
    match oracle with
    | CallOutcome.success bytes :: _ =>
        (TTSResult.ok,
         [TTSEffect.apiCall, TTSEffect.writeTemp, TTSEffect.writeOutput, TTSEffect.unlinkTemp],
         some (silence ++ bytes ++ silence))
    | CallOutcome.rateLimit hdr :: _ => (TTSResult.raisedRateLimit hdr, [TTSEffect.apiCall], none)
    | CallOutcome.otherError :: _ => (TTSResult.raisedOther, [TTSEffect.apiCall], none)
    | [] => (TTSResult.raisedOther, [TTSEffect.apiCall], none)

/-- Model of the text2speech main loop (lines 104 to 113): notes is the
set of note files on disk with their text, indexed by slide number; the
loop runs i from one to the count of existing note files and calls
text_to_speech whenever note i exists.  existingVoiceovers is the set of
voiceover files already on disk; the loop never consults it, which the
unused parameter records.  The result lists, per loop index, the content
written to voiceover i (none when nothing is written). -/
def tts_main_run (notes : List (Nat × String)) (existingVoiceovers : List Nat)
    (silence : List Nat) (api : Nat → CallOutcome) : List (Nat × Option (List Nat)) :=
  let _ := existingVoiceovers
  (List.range' 1 notes.length).map (fun i =>
    match notes.find? (fun p => p.1 == i) with
    | some (_, t) => (i, (text_to_speech true t silence [api i]).2.2)
    | none => (i, none))

/-! extract_notes.py -/

/-- What one slide of the deck offers to the extractor: no notes
container, a notes text, or a failure while reading the notes. -/
inductive SlideNotes
  | noNotes
  | withNotes (text : String)
  | extractionFails
deriving DecidableEq

/-- Result of one extract_notes run: the note files written with their
slide number and content, whether an exception escaped the function,
and whether the error log line was emitted. -/
structure ExtractOutcome where
  files : List (Nat × String)
  raised : Bool
  errorLogged : Bool
deriving DecidableEq

/-- The slide loop of extract_notes: slides with notes get a file with
the stripped text, slides without notes get none, and a failure on one
slide escapes the loop at once (the surrounding handler catches it), so
later slides are not processed.  Returns the files written and whether
the loop was aborted by a failure. -/
def processSlides : Nat → List SlideNotes → List (Nat × String) × Bool
  | _, [] => ([], false)
  | i, SlideNotes.noNotes :: rest => processSlides (i + 1) rest
  | i, SlideNotes.withNotes t :: rest =>
      let r := processSlides (i + 1) rest
      ((i, pyStrip t) :: r.1, r.2)
  | _, SlideNotes.extractionFails :: _ => ([], true)

/-- Model of extract_notes.extract_notes (lines 11 to 28): the whole
body sits in a single try block whose handler logs the error and
returns, so the function never raises; a deck that cannot be opened
produces no files, and a failure inside the slide loop keeps the files
written so far and drops the rest. -/
def extract_notes (deckOpens : Bool) (slides : List SlideNotes) : ExtractOutcome :=
  if deckOpens then
    let r := processSlides 1 slides
    ⟨r.1, false, r.2⟩
  else ⟨[], false, true⟩

/-! pdf2png.py and the resize in generate_videoclips.py -/

/-- Model of pdf2png.resize_image_to_even_dimensions (lines 11 to 15):
each odd dimension is rounded up by one pixel. -/
def resize_image_to_even_dimensions (w h : Nat) : Nat × Nat :=
  ((if w % 2 = 0 then w else w + 1), (if h % 2 = 0 then h else h + 1))

/-- Model of the scale filter used by generate_videoclips.resize_image
(lines 37 to 42) and create_videoclip (line 70): ffmpeg evaluates the
width expression iw minus mod of iw and two, and likewise for height,
so each odd dimension is rounded down by one pixel. -/
def evenScale (w h : Nat) : Nat × Nat := (w - w % 2, h - h % 2)

/-! generate_videoclips.py -/

/-- Ordering the builtin sorted applies inside validate_files (lines 94
to 95): paths of one directory compare by their file name string. -/
def validationOrder (files : List String) : List String := pySorted strLe files

/-- The pairwise check of validate_files (lines 100 to 104): the last
underscore field of the two stems must agree at every position of the
zipped sorted lists. -/
def checkPairs : List (String × String) → Except String Unit
  | [] => Except.ok ()
  | (i, v) :: rest =>
      if lastField (stemOf i) == lastField (stemOf v) then checkPairs rest
      else Except.error ("Image " ++ i ++ " and voiceover " ++ v ++ " do not match.")

/-- Model of generate_videoclips.validate_files (lines 92 to 104): sort
both glob results with the builtin sorted, fail if the counts differ,
then check the zipped pairs for equal numeric suffixes. -/
def validate_files (images voiceovers : List String) : Except String Unit :=
  if (validationOrder images).length ≠ (validationOrder voiceovers).length then
    Except.error "The number of images does not match the number of voiceover notes."
  else checkPairs ((validationOrder images).zip (validationOrder voiceovers))

/-- One observable action of the clip loop. -/
inductive ClipAction
  | probe (file : String)
  | resizeWrite (src dst : String)
  | compose (image voiceover clip : String)
deriving DecidableEq

/-- Clip file name generate_videoclips derives from an image name
(line 126): videoclip underscore the numeric suffix of the image stem. -/
def clipFor (image : String) : String := "videoclip_" ++ lastField (stemOf image) ++ ".mp4"

/-- The per-pair loop of generate_videoclips (lines 124 to 134): a pair
whose clip file is absent, or any pair when overwrite is set, is probed
twice, probed again and resized by resize_image, then composed; a pair
whose clip exists with overwrite unset contributes no action. -/
def composeLoop (existing : List String) (overwrite : Bool) : List (String × String) → List ClipAction
  | [] => []
  | (img, vo) :: rest =>
      if !(existing.contains (clipFor img)) || overwrite then
        ClipAction.probe img :: ClipAction.probe vo :: ClipAction.probe img ::
        ClipAction.resizeWrite img ("resized_" ++ img) ::
        ClipAction.compose ("resized_" ++ img) vo (clipFor img) ::
        composeLoop existing overwrite rest
      else composeLoop existing overwrite rest

/-- Model of generate_videoclips.generate_videoclips (lines 107 to 134):
after the directory checks and validate_files, both lists are natsorted,
zipped, and run through the clip loop.  The first component is the list
of actions performed, the second how the function returned; on an error
the action list is empty because the error is raised before the loop. -/
def generate_videoclips (imagesDirExists voiceoversDirExists : Bool)
    (images voiceovers existing : List String) (overwrite : Bool) :
    List ClipAction × Except String Unit :=
  if !imagesDirExists || !voiceoversDirExists then
    ([], Except.error "One or both of the specified directories (images or voiceovers) do not exist.")
  else
    match validate_files images voiceovers with
    | Except.error e => ([], Except.error e)
    | Except.ok _ =>
        (composeLoop existing overwrite ((natsorted images).zip (natsorted voiceovers)),
         Except.ok ())

/-! Helper lemmas -/

theorem insertSorted_length (le : α → α → Bool) (x : α) (xs : List α) :
    (insertSorted le x xs).length = xs.length + 1 := by
  induction xs with
  | nil => rfl
  | cons y ys ih =>
      simp only [insertSorted]
      split
      · simp
      · simp [ih]

theorem pySorted_length (le : α → α → Bool) (xs : List α) :
    (pySorted le xs).length = xs.length := by
  induction xs with
  | nil => rfl
  | cons x xs ih => simp [pySorted, insertSorted_length, ih]

theorem validationOrder_length (files : List String) :
    (validationOrder files).length = files.length :=
  pySorted_length _ _

theorem processSlides_fail_cuts : ∀ (front rest : List SlideNotes) (i : Nat),
    SlideNotes.extractionFails ∉ front →
    processSlides i (front ++ SlideNotes.extractionFails :: rest) =
      ((processSlides i front).1, true)
  | [], _, _, _ => rfl
  | SlideNotes.noNotes :: ss, rest, i, h => by
      simp only [List.mem_cons, not_or] at h
      simpa [processSlides] using processSlides_fail_cuts ss rest (i + 1) h.2
  | SlideNotes.withNotes t :: ss, rest, i, h => by
      simp only [List.mem_cons, not_or] at h
      simp [processSlides, processSlides_fail_cuts ss rest (i + 1) h.2]
  | SlideNotes.extractionFails :: ss, _, _, h =>
      absurd (List.mem_cons_self _ _) h

theorem composeLoop_all_skip (existing : List String) (pairs : List (String × String))
    (h : pairs.all (fun p => existing.contains (clipFor p.1)) = true) :
    composeLoop existing false pairs = [] := by
  induction pairs with
  | nil => rfl
  | cons p ps ih =>
      rcases p with ⟨img, vo⟩
      simp only [List.all_cons, Bool.and_eq_true] at h
      simp only [composeLoop, h.1, Bool.not_true, Bool.or_false, Bool.false_eq_true,
        if_false]
      exact ih h.2

/-! Claim theorems -/

/-- C1: the concatenation manifest is claimed to list clip names in
natural numeric order of the index; the source sorts by the stem string,
so at indices one, two and ten it puts videoclip ten before videoclip
two, diverging from the natural order the spec demands. -/
theorem concat_manifest_lex_not_natural :
    create_concat_file ["videoclip_1.mp4", "videoclip_2.mp4", "videoclip_10.mp4"] =
      ["videoclip_1.mp4", "videoclip_10.mp4", "videoclip_2.mp4"] ∧
    natsorted ["videoclip_1.mp4", "videoclip_2.mp4", "videoclip_10.mp4"] =
      ["videoclip_1.mp4", "videoclip_2.mp4", "videoclip_10.mp4"] ∧
    create_concat_file ["videoclip_1.mp4", "videoclip_2.mp4", "videoclip_10.mp4"] ≠
      natsorted ["videoclip_1.mp4", "videoclip_2.mp4", "videoclip_10.mp4"] := by
  decide

/-- C2: the spec claims a rate-limited synthesis call is retried once
after waiting at least the reset hint; the source installs no retry
wrapper, so on a first-call rate limit with hint of two seconds the
function makes exactly one API call, sleeps never, and propagates the
rate-limit error even though a second call would succeed. -/
theorem tts_rate_limit_not_retried :
    text_to_speech true "hello" [9, 9]
      [CallOutcome.rateLimit (some "2s"), CallOutcome.success [1, 2]] =
      (TTSResult.raisedRateLimit (some "2s"), [TTSEffect.apiCall], none) := by
  decide

/-- C3: the header value of the form twelve followed by s parses to
twelve, but when the header is absent the code slices the last character
off the default single-digit string and hands int the empty string,
which raises instead of yielding the claimed one-second fallback. -/
theorem rate_limit_header_fallback_raises :
    parse_rate_limit_headers (some "12s") = some 12 ∧
    parse_rate_limit_headers none = none := by
  decide

/-- C4: when the image and voiceover counts differ, generate_videoclips
raises the validation error before the clip loop runs, so no clip action
is performed. -/
theorem mismatch_counts_error_before_compose
    (images voiceovers existing : List String) (overwrite : Bool)
    (h : images.length ≠ voiceovers.length) :
    generate_videoclips true true images voiceovers existing overwrite =
      ([], Except.error "The number of images does not match the number of voiceover notes.") := by
  have hv : validate_files images voiceovers =
      Except.error "The number of images does not match the number of voiceover notes." := by
    unfold validate_files
    rw [validationOrder_length, validationOrder_length, if_pos h]
  unfold generate_videoclips
  simp [hv]

/-- C4 witness: nine images against ten voiceovers fail validation with
no clip action performed. -/
theorem mismatch_counts_error_before_compose_witness :
    generate_videoclips true true
      ["image_1.png", "image_2.png", "image_3.png", "image_4.png", "image_5.png",
       "image_6.png", "image_7.png", "image_8.png", "image_9.png"]
      ["voiceover_1.mp3", "voiceover_2.mp3", "voiceover_3.mp3", "voiceover_4.mp3",
       "voiceover_5.mp3", "voiceover_6.mp3", "voiceover_7.mp3", "voiceover_8.mp3",
       "voiceover_9.mp3", "voiceover_10.mp3"] [] false =
      ([], Except.error "The number of images does not match the number of voiceover notes.") :=
  mismatch_counts_error_before_compose _ _ _ _ (by decide)

/-- C5 counterexample: the ordering validate_files applies is the
builtin string sort, which at indices one, two and ten puts image ten
before image two, so the validation sequences are not in the natural
numeric order the claim states. -/
theorem validation_order_not_natural_cex :
    validationOrder ["image_1.png", "image_2.png", "image_10.png"] =
      ["image_1.png", "image_10.png", "image_2.png"] ∧
    validationOrder ["image_1.png", "image_2.png", "image_10.png"] ≠
      natsorted ["image_1.png", "image_2.png", "image_10.png"] := by
  decide

/-- C5 amended: clip composition natsorts both sequences and pairs
trailing index ten with ten, while validation sorts lexicographically;
since it sorts both lists the same way, the ten-slide deck still passes
validation, and the composer emits the pairs in natural order. -/
theorem composition_natural_pairing :
    validate_files
      ["image_10.png", "image_9.png", "image_8.png", "image_7.png", "image_6.png",
       "image_5.png", "image_4.png", "image_3.png", "image_2.png", "image_1.png"]
      ["voiceover_2.mp3", "voiceover_10.mp3", "voiceover_1.mp3", "voiceover_3.mp3",
       "voiceover_4.mp3", "voiceover_5.mp3", "voiceover_6.mp3", "voiceover_7.mp3",
       "voiceover_8.mp3", "voiceover_9.mp3"] = Except.ok () ∧
    (generate_videoclips true true
      ["image_10.png", "image_9.png", "image_8.png", "image_7.png", "image_6.png",
       "image_5.png", "image_4.png", "image_3.png", "image_2.png", "image_1.png"]
      ["voiceover_2.mp3", "voiceover_10.mp3", "voiceover_1.mp3", "voiceover_3.mp3",
       "voiceover_4.mp3", "voiceover_5.mp3", "voiceover_6.mp3", "voiceover_7.mp3",
       "voiceover_8.mp3", "voiceover_9.mp3"] [] false).1.filterMap
      (fun a => match a with | ClipAction.compose i v c => some (i, v, c) | _ => none) =
      [("resized_image_1.png", "voiceover_1.mp3", "videoclip_1.mp4"),
       ("resized_image_2.png", "voiceover_2.mp3", "videoclip_2.mp4"),
       ("resized_image_3.png", "voiceover_3.mp3", "videoclip_3.mp4"),
       ("resized_image_4.png", "voiceover_4.mp3", "videoclip_4.mp4"),
       ("resized_image_5.png", "voiceover_5.mp3", "videoclip_5.mp4"),
       ("resized_image_6.png", "voiceover_6.mp3", "videoclip_6.mp4"),
       ("resized_image_7.png", "voiceover_7.mp3", "videoclip_7.mp4"),
       ("resized_image_8.png", "voiceover_8.mp3", "videoclip_8.mp4"),
       ("resized_image_9.png", "voiceover_9.mp3", "videoclip_9.mp4"),
       ("resized_image_10.png", "voiceover_10.mp3", "videoclip_10.mp4")] := by
  decide

/-- C6: a note whose text strips to empty copies the silence track to
the output path, makes no API call and raises nothing, so the produced
file holds exactly the silence bytes. -/
theorem empty_text_copies_silence (text : String) (silence : List Nat)
    (oracle : List CallOutcome) (h : stripEmpty text = true) :
    text_to_speech true text silence oracle =
      (TTSResult.ok, [TTSEffect.copySilence], some silence) := by
  unfold text_to_speech
  simp [h]

/-- C6 witness: a whitespace-only note yields the silence bytes. -/
theorem empty_text_copies_silence_witness :
    text_to_speech true "  " [3, 4] [] =
      (TTSResult.ok, [TTSEffect.copySilence], some [3, 4]) :=
  empty_text_copies_silence "  " [3, 4] [] (by decide)

/-- C7 counterexample: the scale filter of generate_videoclips rounds an
odd width down, so at width one thousand and eighty one the output is
one pixel smaller than the input, not one larger as claimed. -/
theorem resize_rounds_down_cex :
    evenScale 1081 607 = (1080, 606) ∧
    (evenScale 1081 607).1 ≠ 1081 + 1 ∧
    (evenScale 1081 607).1 < 1081 := by
  decide

/-- C7 amended: both resize paths force even dimensions that differ from
the input by at most one pixel; the pdf renderer rounds odd dimensions
up by one, while the clip composer scale filter rounds them down by one. -/
theorem even_dimension_invariant (w h : Nat) :
    ((resize_image_to_even_dimensions w h).1 % 2 = 0 ∧
     w ≤ (resize_image_to_even_dimensions w h).1 ∧
     (resize_image_to_even_dimensions w h).1 ≤ w + 1 ∧
     (resize_image_to_even_dimensions w h).2 % 2 = 0 ∧
     h ≤ (resize_image_to_even_dimensions w h).2 ∧
     (resize_image_to_even_dimensions w h).2 ≤ h + 1) ∧
    ((evenScale w h).1 % 2 = 0 ∧
     (evenScale w h).1 ≤ w ∧ w ≤ (evenScale w h).1 + 1 ∧
     (evenScale w h).2 % 2 = 0 ∧
     (evenScale w h).2 ≤ h ∧ h ≤ (evenScale w h).2 + 1) := by
  have hw := Nat.mod_two_eq_zero_or_one w
  have hh := Nat.mod_two_eq_zero_or_one h
  unfold resize_image_to_even_dimensions evenScale
  rcases hw with hw | hw <;> rcases hh with hh | hh <;> simp [hw, hh] <;> omega

/-- C8 counterexample: a deck that cannot be opened does not raise (the
single handler swallows the error), and a failure on slide two prevents
the note file for slide three, so extraction neither fails fatally on
open errors nor continues past a failing slide as claimed. -/
theorem extract_notes_error_handling_cex :
    (extract_notes false [SlideNotes.withNotes "a"]).raised = false ∧
    (extract_notes true [SlideNotes.withNotes "a", SlideNotes.extractionFails,
        SlideNotes.withNotes "c"]).files = [(1, "a")] := by
  decide

/-- C8 amended: every failure is caught by the one surrounding handler,
which logs and returns normally; an unopenable deck yields no files, and
a failure on slide k keeps the files of the slides before k and produces
none for k or any later slide. -/
theorem extract_notes_single_handler (slides front rest : List SlideNotes)
    (h : SlideNotes.extractionFails ∉ front) :
    extract_notes false slides = ⟨[], false, true⟩ ∧
    extract_notes true (front ++ SlideNotes.extractionFails :: rest) =
      ⟨(processSlides 1 front).1, false, true⟩ := by
  refine ⟨rfl, ?_⟩
  simp [extract_notes, processSlides_fail_cuts front rest 1 h]

/-- C8 witness: with notes on slide one, a failure on slide two and
notes on slide three, only the slide-one file is produced and nothing is
raised; an unopenable deck produces nothing. -/
theorem extract_notes_single_handler_witness :
    extract_notes false [] = ⟨[], false, true⟩ ∧
    extract_notes true ([SlideNotes.withNotes "a"] ++ SlideNotes.extractionFails ::
        [SlideNotes.withNotes "c"]) =
      ⟨(processSlides 1 [SlideNotes.withNotes "a"]).1, false, true⟩ :=
  extract_notes_single_handler [] [SlideNotes.withNotes "a"] [SlideNotes.withNotes "c"]
    (by decide)

/-- C9 counterexample: with note one present (empty text) and voiceover
one already on disk, a rerun of the voiceover stage still writes
voiceover one, because the loop checks only note existence and never the
output file, refuting the claim that a second run rewrites no existing
voiceover. -/
theorem voiceover_rewrite_on_rerun_cex :
    tts_main_run [(1, "")] [1] [9] (fun _ => CallOutcome.success []) =
      [(1, some [9])] := by
  decide

/-- C9 amended: with overwrite disabled, generate_videoclips performs no
probe, resize or compose action for indices whose clip exists, but the
voiceover stage does not skip: a rerun rewrites an existing voiceover
whenever its note file exists. -/
theorem clips_skipped_but_voiceovers_rewritten
    (images voiceovers existing : List String)
    (h : ((natsorted images).zip (natsorted voiceovers)).all
        (fun p => existing.contains (clipFor p.1)) = true) :
    (generate_videoclips true true images voiceovers existing false).1 = [] ∧
    (tts_main_run [(1, "")] [1] [9] (fun _ => CallOutcome.success [])).map Prod.snd =
      [some [9]] := by
  constructor
  · unfold generate_videoclips
    cases hv : validate_files images voiceovers with
    | error e => simp [hv]
    | ok u =>
        cases u
        simp [hv, composeLoop_all_skip existing _ h]
  · decide

/-- C9 witness: one image, one voiceover and the matching clip already
present with overwrite disabled give an action-free clip run, while the
voiceover stage still writes. -/
theorem clips_skipped_but_voiceovers_rewritten_witness :
    (generate_videoclips true true ["image_1.png"] ["voiceover_1.mp3"]
      ["videoclip_1.mp4"] false).1 = [] ∧
    (tts_main_run [(1, "")] [1] [9] (fun _ => CallOutcome.success [])).map Prod.snd =
      [some [9]] :=
  clips_skipped_but_voiceovers_rewritten ["image_1.png"] ["voiceover_1.mp3"]
    ["videoclip_1.mp4"] (by decide)

/-- C10: a missing note file makes text_to_speech log a warning and
return normally with no output written and no API call; in the main loop
this leaves a gap, so notes on slides one and three yield a single
voiceover for two loop indices and slide three is never reached. -/
theorem missing_note_warn_no_output (text : String) (silence : List Nat)
    (oracle : List CallOutcome) :
    text_to_speech false text silence oracle =
      (TTSResult.ok, [TTSEffect.warnMissing], none) ∧
    tts_main_run [(1, "x"), (3, "y")] [] [0] (fun _ => CallOutcome.success [5]) =
      [(1, some [0, 5, 0]), (2, none)] := by
  constructor
  · simp [text_to_speech]
  · decide

end S2V
